import Mathlib

set_option maxRecDepth 100000

/-!
# Verification of the banking RAG decision engine

A shallow embedding of the retrieval, chunking, complaint-routing,
fraud-scoring and product-eligibility logic of
`app/rag/rag_system/rag_query.py`, `app/rag/rag_system/ingest_documents.py`
and the shared constant tables of
`app/rag/knowledge_base/generate_policies.py`.

Modelling conventions:
* Python `str` is Lean `String`; character-level operations are carried out
  on `String.data` (`List Char`), which matches Python's code-point view for
  the ASCII texts the system processes.
* Python floats (distances, amounts, similarity scores) are modelled as `ℚ`.
* The external ChromaDB similarity search is an explicit argument of type
  `Except Unit (List Passage)`: `Except.error` models the search call
  raising, `Except.ok l` models a successful call returning passages `l`.
* `datetime.fromisoformat(ts.replace(' ', 'T')).hour` is abstracted as an
  oracle `hp : String → Option Nat` mapping a timestamp string to its parsed
  hour (`none` models a `ValueError`/`TypeError` being raised).
-/

/-! ## Python-style string primitives -/

/-- Python `\s` / `str.strip` whitespace characters (ASCII range). -/
def pyWs (c : Char) : Bool :=
  c == ' ' || c == '\t' || c == '\n' || c == '\r' ||
  c == Char.ofNat 11 || c == Char.ofNat 12

/-- `str.strip()` on a character list. -/
def pyStripRaw (l : List Char) : List Char :=
  ((l.dropWhile pyWs).reverse.dropWhile pyWs).reverse

/-- Python `s.strip()`. -/
def pyStrip (s : String) : String :=
  ⟨pyStripRaw s.data⟩

/-- Whether `n` is a leading prefix of `h` (character lists). -/
def listPre : List Char → List Char → Bool
  | [], _ => true
  | _ :: _, [] => false
  | a :: as, b :: bs => a == b && listPre as bs

/-- Whether `n` occurs contiguously inside `h` (character lists). -/
def listSub (n : List Char) : List Char → Bool
  | [] => n.isEmpty
  | b :: bs => listPre n (b :: bs) || listSub n bs

/-- Python `needle in haystack` for strings. -/
def pyIn (needle haystack : String) : Bool :=
  listSub needle.data haystack.data

/-- Split a character list at every character satisfying `p`
(Python `str.split(sep)` with a one-character separator). -/
def splitP (p : Char → Bool) : List Char → List (List Char)
  | [] => [[]]
  | c :: cs =>
    match splitP p cs with
    | [] => [[]]
    | h :: t => if p c then [] :: h :: t else (c :: h) :: t

/-- Python `s.split(',')`. -/
def pySplitComma (s : String) : List String :=
  (splitP (· == ',') s.data).map fun l => ⟨l⟩

/-- Python `s.split()` (split on whitespace runs, dropping empty pieces). -/
def pyWords (s : String) : List String :=
  ((splitP pyWs s.data).map fun l => (⟨l⟩ : String)).filter (fun w => w != "")

/-- ASCII lower-casing of one character (Python `str.lower` on ASCII text). -/
def pyLowerChar (c : Char) : Char :=
  if 65 ≤ c.toNat ∧ c.toNat ≤ 90 then Char.ofNat (c.toNat + 32) else c

/-- ASCII upper-casing of one character (Python `str.upper` on ASCII text). -/
def pyUpperChar (c : Char) : Char :=
  if 97 ≤ c.toNat ∧ c.toNat ≤ 122 then Char.ofNat (c.toNat - 32) else c

/-- Python `s.lower()` (ASCII). -/
def pyLower (s : String) : String :=
  ⟨s.data.map pyLowerChar⟩

/-- Python `s.upper()` (ASCII). -/
def pyUpper (s : String) : String :=
  ⟨s.data.map pyUpperChar⟩

/-- Python slicing `s[:n]`. -/
def pySlice (s : String) (n : Nat) : String :=
  ⟨s.data.take n⟩

/-- Python `sep.join(parts)`. -/
def pyJoin (sep : String) : List String → String
  | [] => ""
  | [s] => s
  | s :: rest => s ++ sep ++ pyJoin sep rest

/-- Does a (reversed) accumulator end in a sentence-final punctuation mark?
This is the `(?<=[.!?])` lookbehind of `re.split(r'(?<=[.!?])\s+', ...)`. -/
def accSentEnd : List Char → Bool
  | p :: _ => p == '.' || p == '!' || p == '?'
  | [] => false

/-- Scanner for `re.split(r'(?<=[.!?])\s+', section)`: `acc` is the current
piece (reversed), `inSep` records that we are inside a matched whitespace
run. -/
def sentAux : List Char → List Char → Bool → List (List Char)
  | [], acc, _ => [acc.reverse]
  | c :: rest, acc, true =>
    if pyWs c then sentAux rest acc true
    else sentAux rest [c] false
  | c :: rest, acc, false =>
    if pyWs c && accSentEnd acc then
      acc.reverse :: sentAux rest [] true
    else
      sentAux rest (c :: acc) false

/-- Python `re.split(r'(?<=[.!?])\s+', s)`. -/
def pySentences (s : String) : List String :=
  (sentAux s.data [] false).map fun l => ⟨l⟩

/-- Attempt to match the tail of a section separator, i.e. a run of at least
50 `=` (resp. `-`) followed by a newline, directly after an opening newline.
Returns the remaining input after the separator on success. -/
def sepTailRun (ch : Char) (l : List Char) : Option (List Char) :=
  let run := l.takeWhile (· == ch)
  if run.length ≥ 50 then
    match l.drop run.length with
    | '\n' :: rest => some rest
    | _ => none
  else none

/-- Try both alternatives of `r'\n={50,}\n|\n-{50,}\n'` after an opening
newline has been consumed. -/
def sepTail (l : List Char) : Option (List Char) :=
  match sepTailRun '=' l with
  | some r => some r
  | none => sepTailRun '-' l

/-- Fuel-driven scanner for `re.split(r'\n={50,}\n|\n-{50,}\n', text)`.
Each step consumes at least one character, so `fuel = length of the input`
always suffices; the fuel-exhausted case is unreachable. -/
def secAux : Nat → List Char → List Char → List (List Char)
  | 0, l, acc => [acc.reverse ++ l]
  | _ + 1, [], acc => [acc.reverse]
  | fuel + 1, c :: rest, acc =>
    if c == '\n' then
      match sepTail rest with
      | some rest2 => acc.reverse :: secAux fuel rest2 []
      | none => secAux fuel rest ('\n' :: acc)
    else secAux fuel rest (c :: acc)

/-- Python `re.split(r'\n={50,}\n|\n-{50,}\n', text)`. -/
def pySections (s : String) : List String :=
  (secAux s.data.length s.data []).map fun l => ⟨l⟩

/-- Scanner for Python `s.split('\n\n')`. -/
def paraAux : List Char → List Char → List (List Char)
  | [], acc => [acc.reverse]
  | [c], acc => [(c :: acc).reverse]
  | c1 :: c2 :: rest, acc =>
    if c1 == '\n' && c2 == '\n' then acc.reverse :: paraAux rest []
    else paraAux (c2 :: rest) (c1 :: acc)

/-- Python `s.split('\n\n')`. -/
def pyParagraphs (s : String) : List String :=
  (paraAux s.data []).map fun l => ⟨l⟩

/-! ## Python `round(x, 3)` (banker's rounding, exact-rational model) -/

/-- Round a rational to the nearest integer, ties to the even neighbour
(Python `round` semantics on exact values). -/
def pyRoundInt (q : ℚ) : ℤ :=
  let f : ℤ := ⌊q⌋
  if q - f < 1/2 then f
  else if (1:ℚ)/2 < q - f then f + 1
  else if f % 2 = 0 then f else f + 1

/-- Python `round(q, 3)` on exact rationals. -/
def pyRound3 (q : ℚ) : ℚ :=
  (pyRoundInt (q * 1000) : ℚ) / 1000

/-! ## Shared constant tables (`generate_policies.py`) -/

/-- `MERCHANT_RISK` (FRM-002): merchant category risk weights. -/
def MERCHANT_RISK : List (String × Int) :=
  [("fintech", 25), ("transport", 15), ("education", 15), ("healthcare", 15),
   ("telecoms", 5), ("supermarket", 0), ("restaurants", 0), ("fuel", 0),
   ("utilities", 0)]

/-- `FLAG_WEIGHTS` (FRM-001): fraud trace flag risk weights. -/
def FLAG_WEIGHTS : List (String × Int) :=
  [("mobile_channel_risk", 15), ("high_amount_spike", 25),
   ("multiple_failures", 20), ("normal_pattern", 0)]

/-- `EXPECTED_SLA` (POL-CCH-001): SLA hours per department. -/
def EXPECTED_SLA : List (String × Int) :=
  [("TSU", 48), ("COC", 48), ("FRM", 24), ("DCS", 72), ("AOD", 72),
   ("CLS", 96)]

/-- `DEPT_NAMES` (POL-CCH-001): full department names by code. -/
def DEPT_NAMES : List (String × String) :=
  [("TSU", "Transaction Services Unit"), ("COC", "Card Operations Center"),
   ("FRM", "Fraud Risk Management"), ("DCS", "Digital Channels Support"),
   ("AOD", "Account Operations Department"), ("CLS", "Credit & Loan Services")]

/-- `RISK_THRESHOLDS` (FRM-001 §2.2): inclusive risk-score bands, in the
Python dict's insertion order. -/
def RISK_THRESHOLDS : List (String × Int × Int) :=
  [("LOW", 0, 30), ("MEDIUM", 31, 60), ("HIGH", 61, 85),
   ("CRITICAL", 86, 100)]

/-- `PRODUCT_THRESHOLDS['Investment Plan']['monthly_inflow_min']`. -/
def investmentInflowMin : ℚ := 2000000

/-- `PRODUCT_THRESHOLDS['Car Loan']['car_loan_signal_score_min']`. -/
def carLoanScoreMin : ℚ := 7/10

/-- `PRODUCT_THRESHOLDS['Personal Loan']['monthly_inflow_min']`. -/
def personalLoanInflowMin : ℚ := 300000

/-- `CAR_LOAN_SIGNAL_WEIGHTS['uber_tracker_min']`. -/
def uberTrackerMin : ℚ := 6

/-- `CAR_LOAN_SIGNAL_WEIGHTS['monthly_inflow_min']`. -/
def carLoanInflowMin : ℚ := 500000

/-- Python `d.get(k, default)` for the integer-valued constant tables. -/
def dictGet (d : List (String × Int)) (k : String) (dflt : Int) : Int :=
  ((d.find? fun kv => kv.1 == k).map (·.2)).getD dflt

/-- Python `d.get(k, default)` for the string-valued constant tables. -/
def dictGetS (d : List (String × String)) (k : String) (dflt : String) :
    String :=
  ((d.find? fun kv => kv.1 == k).map (·.2)).getD dflt

/-! ## DocumentChunker (`ingest_documents.py`) -/

/-- `DocumentChunker.MAX_CHUNK_SIZE`. -/
def MAX_CHUNK_SIZE : Nat := 1000

/-- `DocumentChunker.CHUNK_OVERLAP`. -/
def CHUNK_OVERLAP : Nat := 100

/-- Total character count of a list of sentences (the chunker's
`current_size` bookkeeping, which ignores the joining spaces). -/
def sumLens (l : List String) : Nat :=
  (l.map String.length).sum

/-- The sentence-packing loop of `DocumentChunker._split_large_section`,
kept at the level of sentence lists: arguments are the remaining sentences,
`current_chunk`, `current_size` and the accumulated chunks. -/
def slsAux : List String → List String → Nat → List (List String) →
    List (List String)
  | [], cur, _, chunks => if cur.isEmpty then chunks else chunks ++ [cur]
  | s :: rest, cur, size, chunks =>
    if size + s.length > MAX_CHUNK_SIZE ∧ ¬cur.isEmpty then
      let overlap := if cur.length > 2 then cur.drop (cur.length - 2) else cur
      let newCur := overlap ++ [s]
      slsAux rest newCur (sumLens newCur) (chunks ++ [cur])
    else
      slsAux rest (cur ++ [s]) (size + s.length) chunks

/-- `DocumentChunker._split_large_section`, before the `' '.join`. -/
def splitLargeLists (sentences : List String) : List (List String) :=
  slsAux sentences [] 0 []

/-- `DocumentChunker._split_large_section(section, section_title)`. -/
def splitLargeSection (sec : String) : List String :=
  (splitLargeLists (pySentences sec)).map (pyJoin " ")

/-- A chunk produced by `DocumentChunker.chunk_by_sections`. -/
structure PolicyChunk where
  chunk_id : String
  content : String
  section_title : String
  chunk_index : Nat
deriving DecidableEq, Repr

/-- One iteration of the `for idx, section in enumerate(sections)` loop of
`DocumentChunker.chunk_by_sections`. -/
def cbsStep (documentId : String) (chunks : List PolicyChunk)
    (idxSec : Nat × String) : List PolicyChunk :=
  let idx := idxSec.1
  let curSection := pyStrip idxSec.2
  if curSection.length < 50 then chunks
  else
    let lines := splitP (· == '\n') curSection.data
    let sectionTitle := pyStrip ⟨lines.headD []⟩
    if curSection.length > MAX_CHUNK_SIZE then
      chunks ++ ((splitLargeSection curSection).enum.map fun si =>
        { chunk_id := documentId ++ "_sec" ++ toString idx ++ "_sub" ++
            toString si.1,
          content := si.2,
          section_title := sectionTitle,
          chunk_index := chunks.length + si.1 })
    else
      chunks ++ [{ chunk_id := documentId ++ "_sec" ++ toString idx,
                   content := curSection,
                   section_title := sectionTitle,
                   chunk_index := chunks.length }]

/-- `DocumentChunker.chunk_by_sections(text, document_id)`. -/
def chunkBySections (text : String) (documentId : String) :
    List PolicyChunk :=
  (pySections text).enum.foldl (cbsStep documentId) []

/-! ## RAGQueryEngine: core retrieval (`rag_query.py`) -/

/-- `RAGQueryEngine.RELEVANCE_THRESHOLD`. -/
def RELEVANCE_THRESHOLD : ℚ := 1/2

/-- `RAGQueryEngine.HIGH_CONFIDENCE_THRESHOLD`. -/
def HIGH_CONFIDENCE_THRESHOLD : ℚ := 3/4

/-- `RAGQueryEngine.DEPARTMENT_MAPPING`, in the Python dict's insertion
order. -/
def DEPARTMENT_MAPPING : List (String × String) :=
  [("Transaction Services Unit", "TSU"), ("TSU", "TSU"),
   ("Card Operations Center", "COC"), ("COC", "COC"),
   ("Fraud Risk Management", "FRM"), ("FRM", "FRM"),
   ("Digital Channels Support", "DCS"), ("DCS", "DCS"),
   ("Account Operations Department", "AOD"), ("AOD", "AOD"),
   ("Credit & Loan Services", "CLS"), ("CLS", "CLS")]

/-- Chunk metadata as stored in the index; `none` models an absent key, so
`metadata.get(k, default)` is `Option.getD`. -/
structure ChunkMeta where
  source_document : Option String
  section_title : Option String
  document_type : Option String
deriving DecidableEq, Repr

/-- One passage returned by the similarity index: document text, metadata
and distance (the parallel `documents`/`metadatas`/`distances` entries of a
ChromaDB result). -/
structure Passage where
  content : String
  metadata : ChunkMeta
  distance : ℚ
deriving DecidableEq, Repr

/-- The structured chunk dict built by
`RAGQueryEngine._process_retrieval_results`. -/
structure RetrievedChunk where
  content : String
  metadata : ChunkMeta
  distance : ℚ
  similarity : ℚ
deriving DecidableEq, Repr

/-- `RAGQueryEngine._process_retrieval_results`: the similarity is
`1 - distance`, with no clamping. -/
def processRetrievalResults (passages : List Passage)
    (includeMetadata : Bool) : List RetrievedChunk :=
  passages.map fun p =>
    { content := p.content,
      metadata := if includeMetadata then p.metadata else ⟨none, none, none⟩,
      distance := p.distance,
      similarity := 1 - p.distance }

/-- The similarity the spec describes: `max(0, min(1, 1 - distance))`.
Stated from the spec's words, for comparison with the code's
`1 - distance`. -/
def specSimilarity (distance : ℚ) : ℚ :=
  max 0 (min 1 (1 - distance))

/-- A citation dict built by `RAGQueryEngine._prepare_citations`. -/
structure Citation where
  rank : Nat
  source_document : String
  «section» : String
  document_type : String
  similarity_score : ℚ
  snippet : String
deriving DecidableEq, Repr

/-- The dict returned by `RAGQueryEngine.query`. -/
structure QueryResult where
  answer : Option String
  sources : List Citation
  confidence : ℚ
  grounded : Bool
  message : Option String
  question : String
  retrieved_chunks : Nat
deriving DecidableEq, Repr

/-- `RAGQueryEngine._error_response`. -/
def errorResponse (message question : String) : QueryResult :=
  { answer := none, sources := [], confidence := 0, grounded := false,
    message := some message, question := question, retrieved_chunks := 0 }

/-- The paragraph-selection loop of `RAGQueryEngine._synthesize_answer`:
first paragraph (of length ≥ 50) with maximal distinct-word overlap with the
question, `none` if every overlap is zero. -/
def bestParagraph (questionWords : List String) (paragraphs : List String) :
    Option String :=
  (paragraphs.foldl
    (fun st para =>
      if para.length < 50 then st
      else
        let paraWords := (pyWords (pyLower para)).dedup
        let overlap := (questionWords.filter fun w => w ∈ paraWords).length
        if overlap > st.2 then (some para, overlap) else st)
    ((none : Option String), 0)).1

/-- The fallback of `_synthesize_answer`: the first paragraph longer than
100 characters, if any. -/
def firstLongParagraph (paragraphs : List String) : Option String :=
  (paragraphs.find? fun para => para.length > 100).map pyStrip

/-- `RAGQueryEngine._synthesize_answer(question, chunks)`. The Python code
only ever calls this with a non-empty chunk list; on `[]` we return `""`. -/
def synthesizeAnswer (question : String) (chunks : List RetrievedChunk) :
    String :=
  match chunks with
  | [] => ""
  | mostRelevant :: restChunks =>
    let paragraphs := pyParagraphs mostRelevant.content
    let questionWords := (pyWords (pyLower question)).dedup
    let best := bestParagraph questionWords paragraphs
    let answerParts : List String :=
      match best with
      | some para => [pyStrip para]
      | none =>
        match firstLongParagraph paragraphs with
        | some para => [para]
        | none => []
    let answerParts :=
      match restChunks with
      | [] => answerParts
      | second :: _ =>
        if second.metadata.source_document ≠
            mostRelevant.metadata.source_document then
          match firstLongParagraph (pyParagraphs second.content) with
          | some para =>
            answerParts ++ ["\n\nAdditional context: " ++ para]
          | none => answerParts
        else answerParts
    let answer := pyJoin "\n\n" answerParts
    let words := pyWords answer
    if words.length > 500 then
      pyJoin " " (words.take 500) ++
        "... [Additional details available in source documents]"
    else answer

/-- `RAGQueryEngine._prepare_citations(chunks)`. -/
def prepareCitations (chunks : List RetrievedChunk) : List Citation :=
  chunks.enum.map fun rc =>
    { rank := rc.1 + 1,
      source_document := rc.2.metadata.source_document.getD "Unknown",
      «section» := rc.2.metadata.section_title.getD "N/A",
      document_type := rc.2.metadata.document_type.getD "Unknown",
      similarity_score := pyRound3 rc.2.similarity,
      snippet :=
        if rc.2.content.length > 200 then pySlice rc.2.content 200 ++ "..."
        else rc.2.content }

/-- The outcome of the external `collection.query` call: `error` models the
call raising an exception, `ok l` a successful call returning passages
`l`. -/
def SearchOutcome : Type := Except Unit (List Passage)

/-- `RAGQueryEngine.query(question, ...)`, as a function of the search
outcome. -/
def ragQuery (question : String) (outcome : SearchOutcome) : QueryResult :=
  match outcome with
  | .error _ =>
    errorResponse "Database query failed. Please try again." question
  | .ok passages =>
    if passages.isEmpty then
      errorResponse "No relevant information found in the knowledge base."
        question
    else
      let retrievedChunks := processRetrievalResults passages true
      let relevantChunks :=
        retrievedChunks.filter fun c =>
          decide (c.similarity ≥ RELEVANCE_THRESHOLD)
      if relevantChunks.isEmpty then
        errorResponse
          "Found information but relevance is too low to answer confidently."
          question
      else
        let avgSimilarity :=
          (relevantChunks.map (·.similarity)).sum / relevantChunks.length
        let confidence := min avgSimilarity 1
        { answer := some (synthesizeAnswer question relevantChunks),
          sources := prepareCitations relevantChunks,
          confidence := pyRound3 confidence,
          grounded := true,
          message := none,
          question := question,
          retrieved_chunks := relevantChunks.length }

/-! ## Dispatcher agent: complaint routing (`rag_query.py`) -/

/-- `RAGQueryEngine.extract_department_code(answer)`: first entry of
`DEPARTMENT_MAPPING` whose (upper-cased) key occurs in the upper-cased
answer. -/
def extractDepartmentCode (answer : String) : String :=
  let answerUpper := pyUpper answer
  match DEPARTMENT_MAPPING.find? fun kv => pyIn (pyUpper kv.1) answerUpper with
  | some kv => kv.2
  | none => "UNKNOWN"

/-- `RAGQueryEngine._determine_priority(complaint_text, dept_code)`. -/
def determinePriority (complaintText : String) (deptCode : String) : String :=
  let complaintLower := pyLower complaintText
  if deptCode == "FRM" then "Critical"
  else if ["fraud", "unauthorized", "hacked", "stolen", "scam"].any
      (fun w => pyIn w complaintLower) then "Critical"
  else if ["declined", "swallowed", "retention", "blocked"].any
      (fun w => pyIn w complaintLower) then "High"
  else if ["not received", "failed transfer"].any
      (fun w => pyIn w complaintLower) then "High"
  else if ["statement", "balance", "inquiry"].any
      (fun w => pyIn w complaintLower) then "Low"
  else "Medium"

/-- The keyword → label table of `RAGQueryEngine._extract_category`, in the
Python dict's insertion order. -/
def CATEGORY_KEYWORDS : List (String × String) :=
  [("transaction", "transaction_dispute"), ("transfer", "transaction_dispute"),
   ("card", "card_issue"), ("atm", "card_issue"),
   ("fraud", "fraud_security"), ("unauthorized", "fraud_security"),
   ("app", "digital_banking"), ("login", "digital_banking"),
   ("account", "account_services"), ("statement", "account_services"),
   ("loan", "credit_services")]

/-- `RAGQueryEngine._extract_category(answer)`. -/
def extractCategory (answer : String) : String :=
  let answerLower := pyLower answer
  match CATEGORY_KEYWORDS.find? fun kv => pyIn kv.1 answerLower with
  | some kv => kv.2
  | none => "general_inquiry"

/-- The routing dict returned by
`RAGQueryEngine.detect_complaint_category`. -/
structure RoutingDecision where
  primary_category : String
  department_code : String
  department_name : String
  priority_level : String
  sla_hours : Int
  confidence : ℚ
  reasoning : String
  sources : List Citation
deriving DecidableEq, Repr

/-- `RAGQueryEngine.detect_complaint_category(complaint_text)`, as a
function of the outcome of its internal policy retrieval. -/
def detectComplaintCategory (complaintText : String)
    (outcome : SearchOutcome) : RoutingDecision :=
  let categoryResult :=
    ragQuery ("Which department should handle this complaint: " ++
      complaintText) outcome
  if categoryResult.grounded = false then
    { primary_category := "unknown",
      department_code := "UNKNOWN",
      department_name := "Unknown",
      priority_level := "Medium",
      sla_hours := dictGet EXPECTED_SLA "TSU" 48,
      confidence := 0,
      reasoning := "No relevant policy found",
      sources := [] }
  else
    let answer := categoryResult.answer.getD ""
    let deptCode := extractDepartmentCode answer
    { primary_category := extractCategory answer,
      department_code := deptCode,
      department_name := dictGetS DEPT_NAMES deptCode "Unknown",
      priority_level := determinePriority complaintText deptCode,
      sla_hours := dictGet EXPECTED_SLA deptCode 48,
      confidence := categoryResult.confidence,
      reasoning := pySlice answer 300 ++ "...",
      sources := categoryResult.sources }

/-! ## Sentinel agent: fraud risk scoring (`rag_query.py`) -/

/-- The transaction fields read by `RAGQueryEngine.calculate_fraud_risk`;
`none` models an absent dict key (`transaction.get(k, default)`). -/
structure Transaction where
  fraud_explainability_trace : Option String
  merchant_category : Option String
  transaction_timestamp : Option String
  amount : Option ℚ
deriving DecidableEq, Repr

/-- STEP 1 of `calculate_fraud_risk`: sum of `FLAG_WEIGHTS` over the
comma-separated, stripped flags of `fraud_explainability_trace`. -/
def flagScore (trace : String) : Int :=
  ((pySplitComma trace).map fun f => dictGet FLAG_WEIGHTS (pyStrip f) 0).sum

/-- STEP 2 of `calculate_fraud_risk`: merchant-category risk
(`MERCHANT_RISK` lookup of the lower-cased, stripped category). -/
def merchantRisk (category : String) : Int :=
  dictGet MERCHANT_RISK (pyStrip (pyLower category)) 0

/-- STEP 3 of `calculate_fraud_risk`: +20 for a parsed hour in 0–4 (the
00:00–05:00 window) with amount ≥ 100000; empty or unparseable timestamps
contribute 0. `hp` is the hour-parsing oracle for
`datetime.fromisoformat(ts.replace(' ', 'T')).hour`. -/
def timingRisk (hp : String → Option Nat) (timestamp : String) (amount : ℚ) :
    Int :=
  if timestamp ≠ "" then
    match hp timestamp with
    | some hour => if hour < 5 ∧ amount ≥ 100000 then 20 else 0
    | none => 0
  else 0

/-- STEP 5 of `calculate_fraud_risk`: first entry of `RISK_THRESHOLDS`
whose inclusive band contains the total, defaulting to `"LOW"`. -/
def riskLevelOf (total : Int) : String :=
  ((RISK_THRESHOLDS.find? fun b =>
      decide (b.2.1 ≤ total ∧ total ≤ b.2.2)).map (·.1)).getD "LOW"

/-- STEP 6 of `calculate_fraud_risk`: (action, requires_challenge,
should_block) per risk level. -/
def riskAction (riskLevel : String) : String × Bool × Bool :=
  if riskLevel == "CRITICAL" then
    ("BLOCK transaction immediately and freeze account", false, true)
  else if riskLevel == "HIGH" then
    ("Mandatory push-to-app biometric challenge", true, false)
  else if riskLevel == "MEDIUM" then
    ("Step-up authentication via OTP", true, false)
  else
    ("Process normally with SMS alert after transaction", false, false)

/-- The dict returned by `RAGQueryEngine.calculate_fraud_risk`;
`flag_score`/`merchant_risk`/`timing_risk` are the `risk_breakdown`
entries. -/
structure RiskAssessment where
  total_risk_score : Int
  risk_level : String
  flag_score : Int
  merchant_risk : Int
  timing_risk : Int
  recommended_action : String
  requires_challenge : Bool
  should_block : Bool
  policy_explanation : String
  sources : List Citation
  confidence : ℚ
deriving DecidableEq, Repr

/-- `RAGQueryEngine.calculate_fraud_risk(transaction)`, as a function of
the hour-parsing oracle `hp` and of the outcome of the explanation
retrieval (STEP 7). -/
def calculateFraudRisk (hp : String → Option Nat) (txn : Transaction)
    (explOutcome : SearchOutcome) : RiskAssessment :=
  let trace := txn.fraud_explainability_trace.getD "normal_pattern"
  let fs := flagScore trace
  let mr := merchantRisk (txn.merchant_category.getD "")
  let timestamp := txn.transaction_timestamp.getD ""
  let amount := txn.amount.getD 0
  let tr := timingRisk hp timestamp amount
  let totalRisk := min (fs + mr + tr) 100
  let riskLevel := riskLevelOf totalRisk
  let act := riskAction riskLevel
  let explanationQuery :=
    ragQuery ("Explain the fraud risk assessment for a " ++ riskLevel ++
      " risk score of " ++ toString totalRisk ++
      " points and the recommended action") explOutcome
  { total_risk_score := totalRisk,
    risk_level := riskLevel,
    flag_score := fs,
    merchant_risk := mr,
    timing_risk := tr,
    recommended_action := act.1,
    requires_challenge := act.2.1,
    should_block := act.2.2,
    policy_explanation :=
      match explanationQuery.answer with
      | some a =>
        if a = "" then
          "Risk score " ++ toString totalRisk ++ "/100 → " ++ riskLevel ++
            ": " ++ act.1
        else a
      | none =>
        "Risk score " ++ toString totalRisk ++ "/100 → " ++ riskLevel ++
          ": " ++ act.1,
    sources := explanationQuery.sources,
    confidence := explanationQuery.confidence }

/-! ## Trajectory agent: product eligibility (`rag_query.py`) -/

/-- The customer fields read by
`RAGQueryEngine.validate_product_recommendation`; `none` models an absent
dict key. -/
structure CustomerData where
  monthly_inflow : Option ℚ
  salary_detected : Option Bool
  car_loan_signal_score : Option ℚ
  age : Option Int
deriving DecidableEq, Repr

/-- One entry of the `met_criteria`/`unmet_criteria` lists of
`validate_product_recommendation`. Each constructor stands for one of the
literal message strings built in the Python code (which interpolate the
observed values); the constructor records which message it is. -/
inductive Criterion where
  /-- met: `'Monthly inflow ₦... > threshold ₦...'` (Investment Plan). -/
  | inflowAboveInvestmentMin : Criterion
  /-- unmet: `'Monthly inflow ₦... ≤ ₦... (gap: ...)'` (Investment Plan). -/
  | inflowBelowInvestmentMin : Criterion
  /-- unmet: `'Monthly inflow ₦... > ₦... → Investment Plan should take
  priority'` (Car Loan branch). -/
  | investmentPriorityOverCarLoan : Criterion
  /-- met: `'car_loan_signal_score ... ≥ threshold ...'`. -/
  | carScoreMet : Criterion
  /-- unmet: `'car_loan_signal_score ... < threshold ... (gap: ...)'`. -/
  | carScoreBelow : Criterion
  /-- met: `'Salary detected (2+ fintech credits > ₦200K)'` (Car Loan
  branch, informational). -/
  | salaryDetectedInfo : Criterion
  /-- unmet: `'Monthly inflow > ₦... → Investment Plan priority'`
  (Personal Loan branch). -/
  | investmentPriorityOverPersonalLoan : Criterion
  /-- unmet: `'car_loan_signal_score ≥ ... → Car Loan priority'`
  (Personal Loan branch). -/
  | carLoanPriorityOverPersonalLoan : Criterion
  /-- met: `'Salary detected'` (Personal Loan branch). -/
  | salaryDetected : Criterion
  /-- unmet: `'salary_detected = False'`. -/
  | salaryNotDetected : Criterion
  /-- met: `'Monthly inflow ₦... > ₦...'` (Personal Loan branch). -/
  | inflowAbovePersonalMin : Criterion
  /-- unmet: `'Monthly inflow ₦... ≤ ₦... (gap: ...)'` (Personal Loan
  branch). -/
  | inflowBelowPersonalMin : Criterion
  /-- unmet: `'Unknown product "..."'`. -/
  | unknownProduct (name : String) : Criterion
  /-- unmet: `'No policy found in knowledge base'`. -/
  | noPolicyFound : Criterion
deriving DecidableEq, Repr

/-- The dict returned by `validate_product_recommendation`. -/
structure EligibilityVerdict where
  is_eligible : Bool
  confidence : ℚ
  met_criteria : List Criterion
  unmet_criteria : List Criterion
  recommendation : String
  policy_basis : Option String
  sources : List Citation
  hierarchy_step : Nat
deriving DecidableEq, Repr

/-- `RAGQueryEngine.validate_product_recommendation(customer_data,
recommended_product)`, as a function of the outcome of the PRS-001 policy
retrieval. -/
def validateProductRecommendation (customerData : CustomerData)
    (recommendedProduct : String) (policyOutcome : SearchOutcome) :
    EligibilityVerdict :=
  let policyResult :=
    ragQuery ("What are the eligibility criteria for " ++
      recommendedProduct ++ " per PRS-001 product recommendation policy?")
      policyOutcome
  if policyResult.grounded = false then
    { is_eligible := false,
      confidence := 0,
      met_criteria := [],
      unmet_criteria := [.noPolicyFound],
      recommendation := "CANNOT_VALIDATE",
      policy_basis := some "No policy available",
      sources := [],
      hierarchy_step := 0 }
  else
    let monthlyInflow := customerData.monthly_inflow.getD 0
    let salaryDetected := customerData.salary_detected.getD false
    let carLoanScore := customerData.car_loan_signal_score.getD 0
    let stepMetUnmet : Nat × List Criterion × List Criterion :=
      if recommendedProduct = "Investment Plan" then
        if monthlyInflow > investmentInflowMin then
          (1, [.inflowAboveInvestmentMin], [])
        else
          (1, [], [.inflowBelowInvestmentMin])
      else if recommendedProduct = "Car Loan" then
        let unmet1 : List Criterion :=
          if monthlyInflow > investmentInflowMin then
            [.investmentPriorityOverCarLoan]
          else []
        let scorePart : List Criterion × List Criterion :=
          if carLoanScore ≥ carLoanScoreMin then ([.carScoreMet], [])
          else ([], [.carScoreBelow])
        let metSalary : List Criterion :=
          if salaryDetected then [.salaryDetectedInfo] else []
        (2, scorePart.1 ++ metSalary, unmet1 ++ scorePart.2)
      else if recommendedProduct = "Personal Loan" then
        let unmet1 : List Criterion :=
          if monthlyInflow > investmentInflowMin then
            [.investmentPriorityOverPersonalLoan]
          else []
        let unmet2 : List Criterion :=
          if carLoanScore ≥ carLoanScoreMin then
            [.carLoanPriorityOverPersonalLoan]
          else []
        let salaryPart : List Criterion × List Criterion :=
          if salaryDetected then ([.salaryDetected], [])
          else ([], [.salaryNotDetected])
        let inflowPart : List Criterion × List Criterion :=
          if monthlyInflow > personalLoanInflowMin then
            ([.inflowAbovePersonalMin], [])
          else ([], [.inflowBelowPersonalMin])
        (3, salaryPart.1 ++ inflowPart.1,
         unmet1 ++ unmet2 ++ salaryPart.2 ++ inflowPart.2)
      else
        (0, [], [.unknownProduct recommendedProduct])
    let isEligible := stepMetUnmet.2.2.length = 0
    { is_eligible := isEligible,
      confidence := policyResult.confidence,
      met_criteria := stepMetUnmet.2.1,
      unmet_criteria := stepMetUnmet.2.2,
      recommendation := if isEligible then "APPROVED" else "NOT_ELIGIBLE",
      policy_basis := policyResult.answer,
      sources := policyResult.sources,
      hierarchy_step := stepMetUnmet.1 }

/-! ## Helper lemmas -/

theorem pyRoundInt_mem (q : ℚ) : pyRoundInt q = ⌊q⌋ ∨ pyRoundInt q = ⌊q⌋ + 1 := by
  simp only [pyRoundInt]
  split_ifs <;> simp

theorem pyRound3_ge_half (q : ℚ) (h : 1/2 ≤ q) : 1/2 ≤ pyRound3 q := by
  have hfl : (500 : ℤ) ≤ ⌊q * 1000⌋ := by
    rw [Int.le_floor]
    push_cast
    linarith
  have hr : (500 : ℤ) ≤ pyRoundInt (q * 1000) := by
    rcases pyRoundInt_mem (q * 1000) with he | he <;> omega
  unfold pyRound3
  rw [le_div_iff₀ (by norm_num : (0:ℚ) < 1000)]
  calc (1:ℚ)/2 * 1000 = (500 : ℤ) := by norm_num
  _ ≤ (pyRoundInt (q * 1000) : ℚ) := by exact_mod_cast hr

theorem dictGet_nonneg (d : List (String × Int)) (hd : ∀ kv ∈ d, 0 ≤ kv.2)
    (k : String) (dflt : Int) (h0 : 0 ≤ dflt) : 0 ≤ dictGet d k dflt := by
  unfold dictGet
  cases hf : d.find? fun kv => kv.1 == k with
  | none => simpa using h0
  | some kv =>
    have := List.mem_of_find?_eq_some hf
    simpa using hd kv this

theorem flagScore_nonneg (trace : String) : 0 ≤ flagScore trace := by
  unfold flagScore
  refine List.sum_nonneg ?_
  intro x hx
  obtain ⟨f, _, rfl⟩ := List.mem_map.mp hx
  exact dictGet_nonneg _ (by decide) _ _ le_rfl

theorem merchantRisk_nonneg (category : String) : 0 ≤ merchantRisk category := by
  unfold merchantRisk
  exact dictGet_nonneg _ (by decide) _ _ le_rfl

theorem timingRisk_cases (hp : String → Option Nat) (ts : String) (amount : ℚ) :
    timingRisk hp ts amount = 0 ∨ timingRisk hp ts amount = 20 := by
  unfold timingRisk
  split_ifs with h1
  · cases hp ts with
    | none => exact Or.inl rfl
    | some hour =>
      simp only
      split_ifs <;> simp
  · exact Or.inl rfl

theorem totalRisk_bounds (a b c : Int) (ha : 0 ≤ a) (hb : 0 ≤ b) (hc : 0 ≤ c) :
    0 ≤ min (a + b + c) 100 ∧ min (a + b + c) 100 ≤ 100 :=
  ⟨le_min (by omega) (by omega), min_le_right _ _⟩

/-! ## C2: similarity is `1 - distance`, with no clamping -/

/-- Claim C2, counterexample: at distance 2 the code's similarity is `-1`,
which differs from the spec's clamped `max(0, min(1, 1 - distance)) = 0`
and is not in `[0, 1]`. -/
theorem similarity_clamp_cex :
    ∃ c ∈ processRetrievalResults
      [{ content := "x", metadata := ⟨none, none, none⟩, distance := 2 }] true,
      c.similarity = -1 ∧ c.similarity ≠ specSimilarity c.distance ∧
        ¬(0 ≤ c.similarity) := by
  refine ⟨_, List.mem_map.mpr ⟨_, List.mem_singleton.mpr rfl, rfl⟩, ?_⟩
  norm_num [specSimilarity]

/-- Claim C2, amended: every retrieved chunk's similarity is exactly
`1 - distance`, with no clamping; it agrees with the spec's clamped value
and lies in `[0, 1]` only under the additional assumption that the index
distance lies in `[0, 1]`. -/
theorem similarity_unclamped (passages : List Passage) (b : Bool)
    (c : RetrievedChunk) (hc : c ∈ processRetrievalResults passages b) :
    c.similarity = 1 - c.distance ∧
    (0 ≤ c.distance → c.distance ≤ 1 →
      0 ≤ c.similarity ∧ c.similarity ≤ 1 ∧
        c.similarity = specSimilarity c.distance) := by
  obtain ⟨p, _, rfl⟩ := List.mem_map.mp hc
  refine ⟨rfl, fun h0 h1 => ?_⟩
  refine ⟨by simpa using h1, by simpa using h0, ?_⟩
  simp only [specSimilarity]
  rw [min_eq_right (by linarith), max_eq_right (by linarith)]

/-- The concrete passage used by the witness of `similarity_unclamped`. -/
def witPassage : Passage :=
  { content := "x", metadata := ⟨none, none, none⟩, distance := 1/2 }

/-- The retrieved chunk `_process_retrieval_results` builds from
`witPassage`. -/
def witChunk : RetrievedChunk :=
  { content := "x", metadata := ⟨none, none, none⟩, distance := 1/2,
    similarity := 1 - 1/2 }

/-- Witness for `similarity_unclamped` at a concrete passage with
distance `1/2`. -/
theorem similarity_unclamped_w :
    witChunk.similarity = 1 - witChunk.distance ∧
    (0 ≤ witChunk.distance → witChunk.distance ≤ 1 →
      0 ≤ witChunk.similarity ∧ witChunk.similarity ≤ 1 ∧
        witChunk.similarity = specSimilarity witChunk.distance) :=
  similarity_unclamped [witPassage] true witChunk
    (List.mem_map.mpr ⟨witPassage, List.mem_singleton.mpr rfl, rfl⟩)

/-! ## C5: timing risk -/

theorem timingRisk_eq_twenty_iff (hp : String → Option Nat) (ts : String)
    (amount : ℚ) :
    timingRisk hp ts amount = 20 ↔
      (ts ≠ "" ∧ ∃ hour, hp ts = some hour ∧ hour < 5 ∧ amount ≥ 100000) := by
  unfold timingRisk
  split_ifs with h1
  · cases hh : hp ts with
    | none => simp [hh]
    | some hour =>
      simp only [hh]
      split_ifs with h2
      · simp only [true_iff]
        exact ⟨h1, hour, rfl, h2.1, h2.2⟩
      · constructor
        · intro h; omega
        · rintro ⟨-, hour2, heq, hlt, hge⟩
          cases heq
          exact absurd ⟨hlt, hge⟩ h2
  · constructor
    · intro h; omega
    · rintro ⟨hne, -⟩
      exact absurd hne h1

/-- Claim C5: the timing component of `calculate_fraud_risk` is 20 exactly
when the timestamp is non-empty, its hour parses, the hour lies in the
00:00–05:00 window (hours 0–4) and the amount is at least 100000; it is 0
in every other case, in particular whenever the timestamp cannot be parsed
(the parsing oracle returns `none`), and the scoring call never fails on a
malformed timestamp (the score is total). -/
theorem timing_risk_spec (hp : String → Option Nat) (txn : Transaction)
    (o : SearchOutcome) :
    ((calculateFraudRisk hp txn o).timing_risk = 20 ↔
      (txn.transaction_timestamp.getD "" ≠ "" ∧
       ∃ hour, hp (txn.transaction_timestamp.getD "") = some hour ∧
         hour < 5 ∧ txn.amount.getD 0 ≥ 100000)) ∧
    ((calculateFraudRisk hp txn o).timing_risk = 0 ∨
      (calculateFraudRisk hp txn o).timing_risk = 20) ∧
    (hp (txn.transaction_timestamp.getD "") = none →
      (calculateFraudRisk hp txn o).timing_risk = 0) := by
  have hproj : (calculateFraudRisk hp txn o).timing_risk =
      timingRisk hp (txn.transaction_timestamp.getD "") (txn.amount.getD 0) :=
    rfl
  rw [hproj]
  refine ⟨timingRisk_eq_twenty_iff hp _ _, timingRisk_cases hp _ _, ?_⟩
  intro hnone
  unfold timingRisk
  split_ifs with h1
  · simp [hnone]
  · rfl

/-- Witness for `timing_risk_spec`: a transaction whose timestamp the
oracle cannot parse scores a timing risk of 0. -/
theorem timing_risk_spec_w :
    (calculateFraudRisk (fun _ => none)
      { fraud_explainability_trace := some "normal_pattern",
        merchant_category := some "supermarket",
        transaction_timestamp := some "not-a-timestamp",
        amount := some 500000 } (Except.error ())).timing_risk = 0 :=
  (timing_risk_spec (fun _ => none)
    { fraud_explainability_trace := some "normal_pattern",
      merchant_category := some "supermarket",
      transaction_timestamp := some "not-a-timestamp",
      amount := some 500000 } (Except.error ())).2.2 rfl

/-! ## Lemmas on `splitP` (comma splitting) -/

theorem splitP_ne_nil (p : Char → Bool) (l : List Char) : splitP p l ≠ [] := by
  cases l with
  | nil => simp [splitP]
  | cons c cs =>
    simp only [splitP]
    cases splitP p cs with
    | nil => simp
    | cons h t => split_ifs <;> simp

theorem splitP_no_match (p : Char → Bool) (l : List Char)
    (h : ∀ c ∈ l, p c = false) : splitP p l = [l] := by
  induction l with
  | nil => rfl
  | cons c cs ih =>
    have hc : p c = false := h c (List.mem_cons_self c cs)
    have ih' : splitP p cs = [cs] :=
      ih fun x hx => h x (List.mem_cons_of_mem _ hx)
    simp [splitP, ih', hc]

theorem splitP_append (p : Char → Bool) (l f : List Char) (c₀ : Char)
    (hc : p c₀ = true) (hf : ∀ c ∈ f, p c = false) :
    splitP p (l ++ c₀ :: f) = splitP p l ++ [f] := by
  induction l with
  | nil =>
    simp [splitP, splitP_no_match p f hf, hc]
  | cons c cs ih =>
    simp only [List.cons_append, splitP, List.append_eq]
    rw [ih]
    cases e : splitP p cs with
    | nil => exact absurd e (splitP_ne_nil p cs)
    | cons h t =>
      dsimp only
      split_ifs <;> simp

/-! ## C4: total score formula, bounds and flag monotonicity -/

theorem flagScore_append_flag (trace f : String)
    (hf : f ∈ FLAG_WEIGHTS.map Prod.fst) :
    flagScore (trace ++ "," ++ f) =
      flagScore trace + dictGet FLAG_WEIGHTS f 0 := by
  have hkeys : f = "mobile_channel_risk" ∨ f = "high_amount_spike" ∨
      f = "multiple_failures" ∨ f = "normal_pattern" := by
    simpa [FLAG_WEIGHTS] using hf
  have hnc : ∀ c ∈ f.data, (c == ',') = false := by
    rcases hkeys with rfl | rfl | rfl | rfl <;> decide
  have hstrip : pyStrip f = f := by
    rcases hkeys with rfl | rfl | rfl | rfl <;> decide
  unfold flagScore pySplitComma
  have hdata : (trace ++ "," ++ f).data = trace.data ++ (',' :: f.data) := by
    rw [String.data_append, String.data_append, List.append_assoc]
    rfl
  rw [hdata, splitP_append _ _ _ ',' rfl hnc]
  simp [hstrip]

/-- Claim C4: the total risk score of `calculate_fraud_risk` equals
`min(flag_score + merchant_risk + timing_risk, 100)`, lies in `[0, 100]`,
and appending one more recognized flag token (a key of `FLAG_WEIGHTS`) to
the transaction's comma-separated flag trace never decreases it. -/
theorem total_score_formula_monotone (hp : String → Option Nat)
    (txn : Transaction) (o : SearchOutcome) (f : String)
    (hf : f ∈ FLAG_WEIGHTS.map Prod.fst) :
    (calculateFraudRisk hp txn o).total_risk_score =
      min ((calculateFraudRisk hp txn o).flag_score +
        (calculateFraudRisk hp txn o).merchant_risk +
        (calculateFraudRisk hp txn o).timing_risk) 100 ∧
    0 ≤ (calculateFraudRisk hp txn o).total_risk_score ∧
    (calculateFraudRisk hp txn o).total_risk_score ≤ 100 ∧
    (calculateFraudRisk hp txn o).total_risk_score ≤
      (calculateFraudRisk hp
        { txn with
            fraud_explainability_trace :=
                 some (txn.fraud_explainability_trace.getD "normal_pattern" ++
                   "," ++ f) }
        o).total_risk_score := by
  have hfs := flagScore_nonneg (txn.fraud_explainability_trace.getD "normal_pattern")
  have hmr := merchantRisk_nonneg (txn.merchant_category.getD "")
  have htr := timingRisk_cases hp (txn.transaction_timestamp.getD "")
    (txn.amount.getD 0)
  have htr0 : 0 ≤ timingRisk hp (txn.transaction_timestamp.getD "")
      (txn.amount.getD 0) := by rcases htr with h | h <;> omega
  have hw : 0 ≤ dictGet FLAG_WEIGHTS f 0 :=
    dictGet_nonneg _ (by decide) _ _ le_rfl
  refine ⟨rfl, ?_, ?_, ?_⟩
  · exact le_min (by omega) (by omega)
  · exact min_le_right _ _
  · have hfs' : flagScore ((txn.fraud_explainability_trace.getD
        "normal_pattern") ++ "," ++ f) =
        flagScore (txn.fraud_explainability_trace.getD "normal_pattern") +
          dictGet FLAG_WEIGHTS f 0 := flagScore_append_flag _ f hf
    show min (flagScore (txn.fraud_explainability_trace.getD
        "normal_pattern") + merchantRisk (txn.merchant_category.getD "") +
        timingRisk hp (txn.transaction_timestamp.getD "")
          (txn.amount.getD 0)) 100 ≤
      min (flagScore (txn.fraud_explainability_trace.getD "normal_pattern" ++
        "," ++ f) + merchantRisk (txn.merchant_category.getD "") +
        timingRisk hp (txn.transaction_timestamp.getD "")
          (txn.amount.getD 0)) 100
    rw [hfs']
    exact min_le_min (by omega) le_rfl

/-- Witness for `total_score_formula_monotone` at a concrete transaction
and the recognized flag `"high_amount_spike"`. -/
theorem total_score_formula_monotone_w :
    (calculateFraudRisk (fun _ => none)
        { fraud_explainability_trace := some "mobile_channel_risk",
          merchant_category := some "fintech",
          transaction_timestamp := none, amount := some 450000 }
        (Except.error ())).total_risk_score =
      min ((calculateFraudRisk (fun _ => none)
        { fraud_explainability_trace := some "mobile_channel_risk",
          merchant_category := some "fintech",
          transaction_timestamp := none, amount := some 450000 }
        (Except.error ())).flag_score +
        (calculateFraudRisk (fun _ => none)
        { fraud_explainability_trace := some "mobile_channel_risk",
          merchant_category := some "fintech",
          transaction_timestamp := none, amount := some 450000 }
        (Except.error ())).merchant_risk +
        (calculateFraudRisk (fun _ => none)
        { fraud_explainability_trace := some "mobile_channel_risk",
          merchant_category := some "fintech",
          transaction_timestamp := none, amount := some 450000 }
        (Except.error ())).timing_risk) 100 ∧
    0 ≤ (calculateFraudRisk (fun _ => none)
        { fraud_explainability_trace := some "mobile_channel_risk",
          merchant_category := some "fintech",
          transaction_timestamp := none, amount := some 450000 }
        (Except.error ())).total_risk_score ∧
    (calculateFraudRisk (fun _ => none)
        { fraud_explainability_trace := some "mobile_channel_risk",
          merchant_category := some "fintech",
          transaction_timestamp := none, amount := some 450000 }
        (Except.error ())).total_risk_score ≤ 100 ∧
    (calculateFraudRisk (fun _ => none)
        { fraud_explainability_trace := some "mobile_channel_risk",
          merchant_category := some "fintech",
          transaction_timestamp := none, amount := some 450000 }
        (Except.error ())).total_risk_score ≤
      (calculateFraudRisk (fun _ => none)
        { fraud_explainability_trace :=
                 some ((({ fraud_explainability_trace :=
                                some "mobile_channel_risk",
                           merchant_category := some "fintech",
                           transaction_timestamp := none,
                           amount := some 450000 } :
                   Transaction).fraud_explainability_trace.getD
                     "normal_pattern") ++ "," ++ "high_amount_spike"),
          merchant_category := some "fintech",
          transaction_timestamp := none, amount := some 450000 }
        (Except.error ())).total_risk_score :=
  total_score_formula_monotone (fun _ => none)
    { fraud_explainability_trace := some "mobile_channel_risk",
      merchant_category := some "fintech",
      transaction_timestamp := none, amount := some 450000 }
    (Except.error ()) "high_amount_spike" (by decide)

/-! ## C3: risk bands partition `[0, 100]` -/

theorem existsUnique_of_filter_length_one {α : Type} (l : List α)
    (p : α → Prop) [DecidablePred p]
    (h : (l.filter fun a => decide (p a)).length = 1) :
    ∃! a, a ∈ l ∧ p a := by
  obtain ⟨a, ha⟩ := List.length_eq_one.mp h
  have hmem : a ∈ l.filter fun a => decide (p a) := by
    rw [ha]; exact List.mem_singleton_self a
  have h1 := List.mem_filter.mp hmem
  refine ⟨a, ⟨h1.1, of_decide_eq_true h1.2⟩, ?_⟩
  intro b hb
  have hb' : b ∈ l.filter fun a => decide (p a) :=
    List.mem_filter.mpr ⟨hb.1, decide_eq_true hb.2⟩
  rw [ha] at hb'
  exact List.mem_singleton.mp hb'

theorem band_filter_length_one (s : Int) (h0 : 0 ≤ s) (h1 : s ≤ 100) :
    (RISK_THRESHOLDS.filter fun b =>
      decide (b.2.1 ≤ s ∧ s ≤ b.2.2)).length = 1 := by
  interval_cases s <;> decide

theorem riskLevelOf_band (t : Int) (h0 : 0 ≤ t) (h1 : t ≤ 100) :
    ∃ b ∈ RISK_THRESHOLDS, b.1 = riskLevelOf t ∧ b.2.1 ≤ t ∧ t ≤ b.2.2 := by
  interval_cases t <;> decide

theorem riskAction_block_iff (s : String) :
    (riskAction s).2.2 = true ↔ s = "CRITICAL" := by
  unfold riskAction
  split_ifs with h1 h2 h3 <;> simp_all

/-- Claim C3: for every integer score in `[0, 100]` exactly one of the four
`RISK_THRESHOLDS` bands contains it; `calculate_fraud_risk` assigns
`risk_level` as a band containing its total score, and `should_block` holds
iff that level is `"CRITICAL"`. -/
theorem risk_band_partition (hp : String → Option Nat) (txn : Transaction)
    (o : SearchOutcome) :
    (∀ s : Int, 0 ≤ s → s ≤ 100 →
      ∃! b, b ∈ RISK_THRESHOLDS ∧ b.2.1 ≤ s ∧ s ≤ b.2.2) ∧
    (∃ b ∈ RISK_THRESHOLDS,
      b.1 = (calculateFraudRisk hp txn o).risk_level ∧
      b.2.1 ≤ (calculateFraudRisk hp txn o).total_risk_score ∧
      (calculateFraudRisk hp txn o).total_risk_score ≤ b.2.2) ∧
    ((calculateFraudRisk hp txn o).should_block = true ↔
      (calculateFraudRisk hp txn o).risk_level = "CRITICAL") := by
  have hfs := flagScore_nonneg (txn.fraud_explainability_trace.getD "normal_pattern")
  have hmr := merchantRisk_nonneg (txn.merchant_category.getD "")
  have htr := timingRisk_cases hp (txn.transaction_timestamp.getD "")
    (txn.amount.getD 0)
  have h0 : 0 ≤ (calculateFraudRisk hp txn o).total_risk_score := by
    show 0 ≤ min _ 100
    rcases htr with h | h <;> [skip; skip] <;>
      exact le_min (by omega) (by omega)
  have h100 : (calculateFraudRisk hp txn o).total_risk_score ≤ 100 :=
    min_le_right _ _
  refine ⟨fun s hs0 hs1 =>
    existsUnique_of_filter_length_one _ _
      (band_filter_length_one s hs0 hs1), ?_, ?_⟩
  · have hlvl : (calculateFraudRisk hp txn o).risk_level =
        riskLevelOf (calculateFraudRisk hp txn o).total_risk_score := rfl
    rw [hlvl]
    exact riskLevelOf_band _ h0 h100
  · have hblk : (calculateFraudRisk hp txn o).should_block =
        (riskAction (calculateFraudRisk hp txn o).risk_level).2.2 := rfl
    rw [hblk]
    exact riskAction_block_iff _

/-- Witness for `risk_band_partition`: the interior hypotheses discharged
at score 50 for a concrete call. -/
theorem risk_band_partition_w :
    ∃! b, b ∈ RISK_THRESHOLDS ∧ b.2.1 ≤ (50 : Int) ∧ (50 : Int) ≤ b.2.2 :=
  (risk_band_partition (fun _ => none) ⟨none, none, none, none⟩
    (Except.error ())).1 50 (by decide) (by decide)

/-! ## C10: validation depends on retrieval, fraud scoring does not -/

/-- Claim C10: when the PRS-001 policy retrieval inside
`validate_product_recommendation` is ungrounded, the verdict is forced to
`is_eligible = false`, recommendation `"CANNOT_VALIDATE"`,
`hierarchy_step = 0` with the single unmet entry `'No policy found in
knowledge base'`, regardless of the customer's signals; by contrast, every
numeric field of `calculate_fraud_risk` is identical across arbitrary
outcomes of its explanation retrieval. -/
theorem ungrounded_validation_vs_fraud :
    (∀ (customerData : CustomerData) (product : String) (o : SearchOutcome),
      (ragQuery ("What are the eligibility criteria for " ++ product ++
        " per PRS-001 product recommendation policy?") o).grounded = false →
      (validateProductRecommendation customerData product o).is_eligible =
        false ∧
      (validateProductRecommendation customerData product o).recommendation =
        "CANNOT_VALIDATE" ∧
      (validateProductRecommendation customerData product o).hierarchy_step =
        0 ∧
      (validateProductRecommendation customerData product o).unmet_criteria =
        [Criterion.noPolicyFound] ∧
      (validateProductRecommendation customerData product o).met_criteria =
        []) ∧
    (∀ (hp : String → Option Nat) (txn : Transaction)
        (o₁ o₂ : SearchOutcome),
      (calculateFraudRisk hp txn o₁).total_risk_score =
        (calculateFraudRisk hp txn o₂).total_risk_score ∧
      (calculateFraudRisk hp txn o₁).risk_level =
        (calculateFraudRisk hp txn o₂).risk_level ∧
      (calculateFraudRisk hp txn o₁).flag_score =
        (calculateFraudRisk hp txn o₂).flag_score ∧
      (calculateFraudRisk hp txn o₁).merchant_risk =
        (calculateFraudRisk hp txn o₂).merchant_risk ∧
      (calculateFraudRisk hp txn o₁).timing_risk =
        (calculateFraudRisk hp txn o₂).timing_risk ∧
      (calculateFraudRisk hp txn o₁).recommended_action =
        (calculateFraudRisk hp txn o₂).recommended_action ∧
      (calculateFraudRisk hp txn o₁).requires_challenge =
        (calculateFraudRisk hp txn o₂).requires_challenge ∧
      (calculateFraudRisk hp txn o₁).should_block =
        (calculateFraudRisk hp txn o₂).should_block) := by
  constructor
  · intro customerData product o hg
    unfold validateProductRecommendation
    rw [if_pos hg]
    exact ⟨rfl, rfl, rfl, rfl, rfl⟩
  · intro hp txn o₁ o₂
    exact ⟨rfl, rfl, rfl, rfl, rfl, rfl, rfl, rfl⟩

/-- Witness for `ungrounded_validation_vs_fraud`: a failing search forces
`CANNOT_VALIDATE` even for a customer with strong signals. -/
theorem ungrounded_validation_vs_fraud_w :
    (validateProductRecommendation
      ⟨some 2500000, some true, some (9/10), some 30⟩ "Car Loan"
      (Except.error ())).is_eligible = false ∧
    (validateProductRecommendation
      ⟨some 2500000, some true, some (9/10), some 30⟩ "Car Loan"
      (Except.error ())).recommendation = "CANNOT_VALIDATE" ∧
    (validateProductRecommendation
      ⟨some 2500000, some true, some (9/10), some 30⟩ "Car Loan"
      (Except.error ())).hierarchy_step = 0 ∧
    (validateProductRecommendation
      ⟨some 2500000, some true, some (9/10), some 30⟩ "Car Loan"
      (Except.error ())).unmet_criteria = [Criterion.noPolicyFound] ∧
    (validateProductRecommendation
      ⟨some 2500000, some true, some (9/10), some 30⟩ "Car Loan"
      (Except.error ())).met_criteria = [] :=
  ungrounded_validation_vs_fraud.1
    ⟨some 2500000, some true, some (9/10), some 30⟩ "Car Loan"
    (Except.error ()) rfl

/-! ## Evaluating `ragQuery` on a single relevant passage -/

theorem ragQuery_singleton (q : String) (p : Passage)
    (h : RELEVANCE_THRESHOLD ≤ 1 - p.distance) :
    ragQuery q (Except.ok [p]) =
      { answer := some (synthesizeAnswer q
          [{ content := p.content, metadata := p.metadata,
             distance := p.distance, similarity := 1 - p.distance }]),
        sources := prepareCitations
          [{ content := p.content, metadata := p.metadata,
             distance := p.distance, similarity := 1 - p.distance }],
        confidence := pyRound3 (min ((1 - p.distance) / 1) 1),
        grounded := true, message := none, question := q,
        retrieved_chunks := 1 } := by
  unfold ragQuery processRetrievalResults
  simp only [List.map_cons, List.map_nil, List.isEmpty_cons,
    List.filter_cons, List.filter_nil, decide_eq_true h, if_true,
    ge_iff_le, Bool.false_eq_true, if_false]
  simp [decide_eq_true h, List.sum_cons]

/-! ## C6: FRM routing is always Critical -/

/-- Claim C6: whenever `detect_complaint_category` resolves the department
code to `"FRM"`, the returned priority level is `"Critical"`, regardless of
the complaint text's other keywords. -/
theorem frm_priority_critical (complaintText : String) (o : SearchOutcome)
    (h : (detectComplaintCategory complaintText o).department_code = "FRM") :
    (detectComplaintCategory complaintText o).priority_level = "Critical" := by
  by_cases hg : (ragQuery ("Which department should handle this complaint: "
      ++ complaintText) o).grounded = false
  · rw [detectComplaintCategory, if_pos hg] at h
    exact absurd h (by decide)
  · rw [detectComplaintCategory, if_neg hg] at h
    rw [detectComplaintCategory, if_neg hg]
    simp only at h ⊢
    rw [h]
    rfl

/-- Concrete passage whose synthesized answer names the fraud department. -/
def frmPassage : Passage :=
  { content := "All suspected fraud complaints must be routed to the Fraud Risk Management department for immediate review and containment by the bank.",
    metadata := ⟨some "POL-CCH-001.txt", some "Routing", some "policy"⟩,
    distance := 3/10 }

/-- Concrete complaint text (spec scenario 3). -/
def frmComplaint : String :=
  "Someone is making transactions I did not authorize"

/-- Witness for `frm_priority_critical`: a concrete retrieval that resolves
to FRM yields priority Critical. -/
theorem frm_priority_critical_w :
    (detectComplaintCategory frmComplaint
      (Except.ok [frmPassage])).priority_level = "Critical" :=
  frm_priority_critical frmComplaint (Except.ok [frmPassage]) (by
    have hq := ragQuery_singleton
      ("Which department should handle this complaint: " ++ frmComplaint)
      frmPassage (by norm_num [RELEVANCE_THRESHOLD, frmPassage])
    unfold detectComplaintCategory
    rw [hq]
    decide)

/-! ## C1: grounded iff a passage clears the threshold -/

theorem relevant_filter_empty_iff (passages : List Passage) :
    ((processRetrievalResults passages true).filter
      (fun c => decide (c.similarity ≥ RELEVANCE_THRESHOLD))).isEmpty =
        true ↔
    ∀ p ∈ passages, ¬(RELEVANCE_THRESHOLD ≤ 1 - p.distance) := by
  rw [List.isEmpty_iff, List.filter_eq_nil_iff]
  unfold processRetrievalResults
  constructor
  · intro h p hp hge
    have hm := h _ (List.mem_map_of_mem _ hp)
    simp only [decide_eq_true_eq, ge_iff_le] at hm
    exact hm hge
  · intro h c hc
    obtain ⟨p, hp, rfl⟩ := List.mem_map.mp hc
    simp only [decide_eq_true_eq, ge_iff_le]
    exact h p hp

/-- Claim C1: a query result is grounded iff the search outcome was a
successful, non-error call returning at least one passage whose similarity
`1 - distance` reaches `RELEVANCE_THRESHOLD`; and every ungrounded result
has `answer = none`, `confidence = 0` and `sources = []` (covering the
zero-passage and erroring-search cases as well). -/
theorem query_grounded_iff (question : String) (outcome : SearchOutcome) :
    ((ragQuery question outcome).grounded = true ↔
      ∃ passages, outcome = Except.ok passages ∧
        ∃ p ∈ passages, RELEVANCE_THRESHOLD ≤ 1 - p.distance) ∧
    ((ragQuery question outcome).grounded = false →
      (ragQuery question outcome).answer = none ∧
      (ragQuery question outcome).confidence = 0 ∧
      (ragQuery question outcome).sources = []) := by
  cases outcome with
  | error e =>
    refine ⟨⟨fun h => ?_, fun h => ?_⟩, fun _ => ⟨rfl, rfl, rfl⟩⟩
    · exact absurd h (by simp [ragQuery, errorResponse])
    · obtain ⟨ps, hps, -⟩ := h
      exact absurd hps (by simp)
  | ok passages =>
    by_cases he : passages.isEmpty = true
    · have hps : passages = [] := List.isEmpty_iff.mp he
      subst hps
      refine ⟨⟨fun h => ?_, fun h => ?_⟩, fun _ => ⟨rfl, rfl, rfl⟩⟩
      · exact absurd h (by simp [ragQuery, errorResponse])
      · obtain ⟨ps, hps, p, hp, -⟩ := h
        cases hps
        exact absurd hp (List.not_mem_nil p)
    · have hq : ragQuery question (Except.ok passages) =
          (if ((processRetrievalResults passages true).filter
              (fun c => decide (c.similarity ≥ RELEVANCE_THRESHOLD))).isEmpty
            then errorResponse
              "Found information but relevance is too low to answer confidently."
              question
            else
              { answer := some (synthesizeAnswer question
                  ((processRetrievalResults passages true).filter
                    (fun c => decide (c.similarity ≥ RELEVANCE_THRESHOLD)))),
                sources := prepareCitations
                  ((processRetrievalResults passages true).filter
                    (fun c => decide (c.similarity ≥ RELEVANCE_THRESHOLD))),
                confidence := pyRound3 (min
                  ((((processRetrievalResults passages true).filter
                    (fun c => decide (c.similarity ≥ RELEVANCE_THRESHOLD))).map
                      (·.similarity)).sum /
                    (((processRetrievalResults passages true).filter
                    (fun c => decide (c.similarity ≥ RELEVANCE_THRESHOLD))).length))
                  1),
                grounded := true, message := none, question := question,
                retrieved_chunks :=
                  ((processRetrievalResults passages true).filter
                    (fun c => decide (c.similarity ≥ RELEVANCE_THRESHOLD))).length }) := by
        unfold ragQuery
        dsimp only
        rw [if_neg he]
      rw [hq]
      by_cases hr : ((processRetrievalResults passages true).filter
          (fun c => decide (c.similarity ≥ RELEVANCE_THRESHOLD))).isEmpty = true
      · rw [if_pos hr]
        refine ⟨⟨fun h => ?_, fun h => ?_⟩, fun _ => ⟨rfl, rfl, rfl⟩⟩
        · exact absurd h (by simp [errorResponse])
        · obtain ⟨ps, hps, p, hp, hsim⟩ := h
          cases hps
          exact absurd hsim ((relevant_filter_empty_iff passages).mp hr p hp)
      · rw [if_neg hr]
        refine ⟨⟨fun _ => ?_, fun _ => rfl⟩, fun h => ?_⟩
        · refine ⟨passages, rfl, ?_⟩
          by_contra hnone
          push_neg at hnone
          exact hr ((relevant_filter_empty_iff passages).mpr
            (fun p hp => by
              intro hge
              exact absurd hge (by simpa using hnone p hp)))
        · exact absurd h (by simp)

/-- Witness for `query_grounded_iff`: the inner implication discharged at a
concrete erroring search, which yields the ungrounded shape. -/
theorem query_grounded_iff_w :
    (ragQuery "any question" (Except.error ())).answer = none ∧
    (ragQuery "any question" (Except.error ())).confidence = 0 ∧
    (ragQuery "any question" (Except.error ())).sources = [] :=
  (query_grounded_iff "any question" (Except.error ())).2 rfl

/-! ## C7: Tier-1 priority blocks lower tiers -/

theorem validate_eligible_iff (c : CustomerData) (p : String)
    (o' : SearchOutcome) :
    (validateProductRecommendation c p o').is_eligible = true ↔
      (validateProductRecommendation c p o').unmet_criteria = [] := by
  unfold validateProductRecommendation
  by_cases hg : (ragQuery ("What are the eligibility criteria for " ++ p ++
      " per PRS-001 product recommendation policy?") o').grounded = false
  · rw [if_pos hg]
    simp
  · rw [if_neg hg]
    dsimp only
    simp [List.length_eq_zero]

/-- Claim C7: for a customer whose monthly inflow strictly exceeds the
Tier-1 Investment-Plan threshold of 2,000,000, a grounded validation of
`"Car Loan"` or `"Personal Loan"` is never eligible and carries the unmet
entry naming the Investment Plan as taking priority, regardless of the
other signals; and in every verdict `is_eligible` holds exactly when the
unmet-criteria list is empty. -/
theorem tier1_priority_blocks_lower (customerData : CustomerData)
    (product : String) (o : SearchOutcome)
    (hg : (ragQuery ("What are the eligibility criteria for " ++ product ++
      " per PRS-001 product recommendation policy?") o).grounded = true)
    (hprod : product = "Car Loan" ∨ product = "Personal Loan")
    (hinf : investmentInflowMin < customerData.monthly_inflow.getD 0) :
    investmentInflowMin = 2000000 ∧
    (validateProductRecommendation customerData product o).is_eligible =
      false ∧
    (product = "Car Loan" →
      Criterion.investmentPriorityOverCarLoan ∈
        (validateProductRecommendation customerData product o).unmet_criteria) ∧
    (product = "Personal Loan" →
      Criterion.investmentPriorityOverPersonalLoan ∈
        (validateProductRecommendation customerData product o).unmet_criteria) ∧
    (∀ (c : CustomerData) (p : String) (o' : SearchOutcome),
      (validateProductRecommendation c p o').is_eligible = true ↔
        (validateProductRecommendation c p o').unmet_criteria = []) := by
  rcases hprod with rfl | rfl
  · refine ⟨rfl, ?_, fun _ => ?_, fun hpl => absurd hpl (by decide),
      fun c p o' => validate_eligible_iff c p o'⟩
    · simp only [validateProductRecommendation, hg]
      simp [hinf]
    · simp only [validateProductRecommendation, hg]
      simp [hinf]
  · refine ⟨rfl, ?_, fun hcl => absurd hcl (by decide), fun _ => ?_,
      fun c p o' => validate_eligible_iff c p o'⟩
    · simp only [validateProductRecommendation, hg]
      simp [hinf]
    · simp only [validateProductRecommendation, hg]
      simp [hinf]

/-- Concrete PRS-001 passage for the eligibility witness. -/
def prsPassage : Passage :=
  { content := "Product recommendation hierarchy PRS-001 places the Investment Plan first, the Car Loan second and the Personal Loan third in priority.",
    metadata := ⟨some "PRS-001.txt", some "Hierarchy", some "policy"⟩,
    distance := 3/10 }

/-- Concrete customer of spec scenario 4 (inflow 2,500,000, strong car-loan
signal). -/
def tierOneCustomer : CustomerData :=
  ⟨some 2500000, some true, some (9/10), some 30⟩

/-- Witness for `tier1_priority_blocks_lower` at spec scenario 4. -/
theorem tier1_priority_blocks_lower_w :
    investmentInflowMin = 2000000 ∧
    (validateProductRecommendation tierOneCustomer "Car Loan"
      (Except.ok [prsPassage])).is_eligible = false ∧
    ("Car Loan" = "Car Loan" →
      Criterion.investmentPriorityOverCarLoan ∈
        (validateProductRecommendation tierOneCustomer "Car Loan"
          (Except.ok [prsPassage])).unmet_criteria) ∧
    ("Car Loan" = "Personal Loan" →
      Criterion.investmentPriorityOverPersonalLoan ∈
        (validateProductRecommendation tierOneCustomer "Car Loan"
          (Except.ok [prsPassage])).unmet_criteria) ∧
    (∀ (c : CustomerData) (p : String) (o' : SearchOutcome),
      (validateProductRecommendation c p o').is_eligible = true ↔
        (validateProductRecommendation c p o').unmet_criteria = []) :=
  tier1_priority_blocks_lower tierOneCustomer "Car Loan"
    (Except.ok [prsPassage])
    (by
      rw [ragQuery_singleton _ prsPassage
        (by norm_num [RELEVANCE_THRESHOLD, prsPassage])])
    (Or.inl rfl)
    (by norm_num [investmentInflowMin, tierOneCustomer])

/-! ## C9: citation snippets and similarity scores -/

/-- Concrete passage whose chunk text is 201 characters long. -/
def longPassage : Passage :=
  { content := ⟨List.replicate 201 'a'⟩,
    metadata := ⟨some "POL-CCH-001.txt", some "SLA", some "policy"⟩,
    distance := 3/10 }

/-- Claim C9, counterexample: a grounded result whose chunk text is 201
characters long carries a snippet of 203 characters (`content[:200]`
followed by `"..."`), refuting the ≤ 200 bound. -/
theorem snippet_length_cex :
    (ragQuery "What is the SLA?" (Except.ok [longPassage])).grounded =
      true ∧
    ∃ c ∈ (ragQuery "What is the SLA?" (Except.ok [longPassage])).sources,
      c.snippet.length = 203 ∧ ¬(c.snippet.length ≤ 200) := by
  have hq := ragQuery_singleton "What is the SLA?" longPassage
    (by norm_num [RELEVANCE_THRESHOLD, longPassage])
  rw [hq]
  have hcit : prepareCitations
      [{ content := longPassage.content, metadata := longPassage.metadata,
         distance := longPassage.distance,
         similarity := 1 - longPassage.distance }] =
      [{ rank := 1, source_document := "POL-CCH-001.txt",
         «section» := "SLA", document_type := "policy",
         similarity_score := pyRound3 (1 - longPassage.distance),
         snippet := pySlice longPassage.content 200 ++ "..." }] := rfl
  refine ⟨rfl, ?_⟩
  rw [hcit]
  exact ⟨_, List.mem_singleton_self _, by decide, by decide⟩

theorem sources_spec (q : String) (o : SearchOutcome) (c : Citation)
    (hc : c ∈ (ragQuery q o).sources) :
    ∃ rc : RetrievedChunk, RELEVANCE_THRESHOLD ≤ rc.similarity ∧
      c.similarity_score = pyRound3 rc.similarity ∧
      c.snippet = (if rc.content.length > 200 then
        pySlice rc.content 200 ++ "..." else rc.content) := by
  cases o with
  | error e => simp [ragQuery, errorResponse] at hc
  | ok passages =>
    by_cases he : passages.isEmpty = true
    · simp [ragQuery, errorResponse, he] at hc
    · by_cases hr : ((processRetrievalResults passages true).filter
          (fun ch => decide (ch.similarity ≥ RELEVANCE_THRESHOLD))).isEmpty =
            true
      · unfold ragQuery at hc
        dsimp only at hc
        rw [if_neg he, if_pos hr] at hc
        simp [errorResponse] at hc
      · unfold ragQuery at hc
        dsimp only at hc
        rw [if_neg he, if_neg hr] at hc
        dsimp only at hc
        unfold prepareCitations at hc
        obtain ⟨⟨i, rc⟩, hm, rfl⟩ := List.mem_map.mp hc
        have hrc : rc ∈ (processRetrievalResults passages true).filter
            (fun ch => decide (ch.similarity ≥ RELEVANCE_THRESHOLD)) := by
          have h2 := List.mem_map_of_mem Prod.snd hm
          rwa [List.enum_map_snd] at h2
        have hsim := (List.mem_filter.mp hrc).2
        refine ⟨rc, ?_, rfl, rfl⟩
        simpa [ge_iff_le] using of_decide_eq_true hsim

/-- Claim C9, amended: in every grounded result, each citation's
similarity score is at least `RELEVANCE_THRESHOLD`, and its snippet is the
full chunk text when that text has at most 200 characters, otherwise the
200-character text prefix followed by `"..."` — hence at most 203 (not
200) characters. -/
theorem citation_snippet_amended (q : String) (o : SearchOutcome)
    (c : Citation) (_hg : (ragQuery q o).grounded = true)
    (hc : c ∈ (ragQuery q o).sources) :
    RELEVANCE_THRESHOLD ≤ c.similarity_score ∧
    c.snippet.length ≤ 203 ∧
    (c.snippet.length ≤ 200 ∨ c.snippet.data.drop 200 = "...".data) := by
  obtain ⟨rc, hrel, hss, hsn⟩ := sources_spec q o c hc
  have h200 : rc.content.length > 200 →
      (rc.content.data.take 200).length = 200 := by
    intro hlen
    rw [List.length_take]
    have : 200 < rc.content.data.length := hlen
    omega
  refine ⟨?_, ?_, ?_⟩
  · rw [hss]
    exact pyRound3_ge_half _ hrel
  · rw [hsn]
    split_ifs with hlen
    · have hps : (pySlice rc.content 200).length = 200 := h200 hlen
      rw [String.length_append, hps]
      decide
    · omega
  · rw [hsn]
    split_ifs with hlen
    · right
      show ((pySlice rc.content 200 ++ "...").data).drop 200 = "...".data
      rw [String.data_append]
      have hps : (pySlice rc.content 200).data = rc.content.data.take 200 :=
        rfl
      rw [hps, List.drop_left' (h200 hlen)]
    · left
      omega

/-- The citation the engine builds for `prsPassage`. -/
def prsCitation : Citation :=
  { rank := 1, source_document := "PRS-001.txt", «section» := "Hierarchy",
    document_type := "policy",
    similarity_score := pyRound3 (1 - prsPassage.distance),
    snippet := prsPassage.content }

/-- Witness for `citation_snippet_amended` at a concrete grounded query. -/
theorem citation_snippet_amended_w :
    RELEVANCE_THRESHOLD ≤ prsCitation.similarity_score ∧
    prsCitation.snippet.length ≤ 203 ∧
    (prsCitation.snippet.length ≤ 200 ∨
      prsCitation.snippet.data.drop 200 = "...".data) :=
  citation_snippet_amended
    "What are the eligibility criteria for Car Loan per PRS-001 product recommendation policy?"
    (Except.ok [prsPassage]) prsCitation
    (by
      rw [ragQuery_singleton _ prsPassage
        (by norm_num [RELEVANCE_THRESHOLD, prsPassage])])
    (by
      rw [ragQuery_singleton _ prsPassage
        (by norm_num [RELEVANCE_THRESHOLD, prsPassage])]
      exact List.mem_singleton_self _)

/-! ## C8: chunk sizes -/

/-- The size discipline `_split_large_section` actually guarantees for one
packed chunk (as a sentence list): either the total sentence length fits
the budget, or the chunk is a freshly restarted one of at most three
sentences (two carried-over overlap sentences plus the new sentence). -/
def chunkOk (l : List String) : Prop :=
  sumLens l ≤ MAX_CHUNK_SIZE ∨ l.length ≤ 3

theorem sumLens_append_single (cur : List String) (s : String) :
    sumLens (cur ++ [s]) = sumLens cur + s.length := by
  simp [sumLens]

theorem slsAux_ok (sentences : List String) :
    ∀ (cur : List String) (size : Nat) (chunks : List (List String)),
      size = sumLens cur → chunkOk cur → (∀ c ∈ chunks, chunkOk c) →
      ∀ c ∈ slsAux sentences cur size chunks, chunkOk c := by
  induction sentences with
  | nil =>
    intro cur size chunks _ hcur hchunks c hc
    unfold slsAux at hc
    split_ifs at hc with h
    · exact hchunks c hc
    · rcases List.mem_append.mp hc with h1 | h1
      · exact hchunks c h1
      · rw [List.mem_singleton.mp h1]
        exact hcur
  | cons s rest ih =>
    intro cur size chunks hsize hcur hchunks c hc
    unfold slsAux at hc
    by_cases h : size + s.length > MAX_CHUNK_SIZE ∧ ¬cur.isEmpty
    · rw [if_pos h] at hc
      dsimp only at hc
      refine ih _ _ _ rfl ?_ ?_ c hc
      · right
        have hov : (if cur.length > 2 then cur.drop (cur.length - 2)
            else cur).length ≤ 2 := by
          split_ifs with h2
          · simp only [List.length_drop]
            omega
          · omega
        rw [List.length_append, List.length_singleton]
        omega
      · intro c' hc'
        rcases List.mem_append.mp hc' with h1 | h1
        · exact hchunks c' h1
        · rw [List.mem_singleton.mp h1]
          exact hcur
    · rw [if_neg h] at hc
      refine ih (cur ++ [s]) (size + s.length) chunks ?_ ?_ hchunks c hc
      · rw [sumLens_append_single, hsize]
      · by_cases hce : cur.isEmpty = true
        · rw [List.isEmpty_iff.mp hce]
          right
          simp
        · have hle : ¬(size + s.length > MAX_CHUNK_SIZE) := fun hgt =>
            h ⟨hgt, by simpa using hce⟩
          left
          rw [sumLens_append_single, ← hsize]
          omega

theorem cbs_fold_ok (text docId : String) :
    ∀ (es : List (Nat × String)) (chunks0 : List PolicyChunk),
      (∀ e ∈ es, e.2 ∈ pySections text) →
      (∀ c ∈ chunks0,
        c.content.length ≤ MAX_CHUNK_SIZE ∨
        ∃ sec ∈ (pySections text).map pyStrip,
          MAX_CHUNK_SIZE < sec.length ∧
          ∃ l ∈ splitLargeLists (pySentences sec),
            c.content = pyJoin " " l ∧ chunkOk l) →
      ∀ c ∈ es.foldl (cbsStep docId) chunks0,
        c.content.length ≤ MAX_CHUNK_SIZE ∨
        ∃ sec ∈ (pySections text).map pyStrip,
          MAX_CHUNK_SIZE < sec.length ∧
          ∃ l ∈ splitLargeLists (pySentences sec),
            c.content = pyJoin " " l ∧ chunkOk l := by
  intro es
  induction es with
  | nil => intro chunks0 _ h c hc; exact h c hc
  | cons e rest ih =>
    intro chunks0 hes h c hc
    simp only [List.foldl_cons] at hc
    refine ih _ (fun e' he' => hes e' (List.mem_cons_of_mem _ he')) ?_ c hc
    intro c' hc'
    unfold cbsStep at hc'
    dsimp only at hc'
    split_ifs at hc' with h1 h2
    · exact h c' hc'
    · rcases List.mem_append.mp hc' with hm | hm
      · exact h c' hm
      · obtain ⟨⟨i, sub⟩, hmm, rfl⟩ := List.mem_map.mp hm
        right
        refine ⟨pyStrip e.2,
          List.mem_map_of_mem pyStrip (hes e (List.mem_cons_self e rest)),
          h2, ?_⟩
        have hsub : sub ∈ splitLargeSection (pyStrip e.2) := by
          have h3 := List.mem_map_of_mem Prod.snd hmm
          rwa [List.enum_map_snd] at h3
        obtain ⟨l, hl, rfl⟩ := List.mem_map.mp hsub
        exact ⟨l, hl, rfl,
          slsAux_ok _ _ _ _ rfl (Or.inl (by decide)) (by simp) l hl⟩
    · rcases List.mem_append.mp hc' with hm | hm
      · exact h c' hm
      · rw [List.mem_singleton.mp hm]
        left
        simpa using h2

/-- Claim C8, amended: every chunk emitted by `chunk_by_sections` either
fits `MAX_CHUNK_SIZE`, or is a sub-chunk of an oversized section packed by
`_split_large_section` from a sentence list `l` whose total sentence
length fits the budget or which is a freshly restarted chunk of at most
three sentences (two carried-over overlap sentences plus one new
sentence). In the latter cases the emitted string can exceed
`MAX_CHUNK_SIZE` — by the joining spaces, or arbitrarily for a restarted
chunk — even when every sentence respects the budget. -/
theorem chunk_size_amended (text docId : String) (c : PolicyChunk)
    (hc : c ∈ chunkBySections text docId) :
    c.content.length ≤ MAX_CHUNK_SIZE ∨
    ∃ sec ∈ (pySections text).map pyStrip, MAX_CHUNK_SIZE < sec.length ∧
      ∃ l ∈ splitLargeLists (pySentences sec), c.content = pyJoin " " l ∧
        (sumLens l ≤ MAX_CHUNK_SIZE ∨ l.length ≤ 3) :=
  cbs_fold_ok text docId (pySections text).enum []
    (fun e he => by
      have h2 := List.mem_map_of_mem Prod.snd he
      rwa [List.enum_map_snd] at h2)
    (fun c hc => absurd hc (List.not_mem_nil c)) c hc

/-- One 400-character sentence. -/
def cexSentence : String := ⟨List.replicate 399 'a' ++ ['.']⟩

/-- A single-section text of four 400-character sentences: the packing
loop emits `[s1 s2]`, `[s1 s2 s3]`, `[s2 s3 s4]`, the last two 1202
characters long. -/
def cexText : String :=
  pyJoin " " [cexSentence, cexSentence, cexSentence, cexSentence]

/-- Claim C8, counterexample: on `cexText` every sentence of every section
is at most `MAX_CHUNK_SIZE` (1000) characters, yet `chunk_by_sections`
emits a chunk of 1202 characters — the overlap sentences carried into a
restarted sub-chunk are never size-checked. -/
theorem chunk_size_cex :
    (∀ sec ∈ (pySections cexText).map pyStrip,
      ∀ s ∈ pySentences sec, s.length ≤ MAX_CHUNK_SIZE) ∧
    ∃ c ∈ chunkBySections cexText "FRM-001",
      MAX_CHUNK_SIZE < c.content.length := by
  constructor
  · decide
  · decide

/-- A small one-section text for the witness. -/
def smallText : String := ⟨List.replicate 60 'b'⟩

/-- Witness for `chunk_size_amended` at a small concrete document. -/
theorem chunk_size_amended_w :
    ({ chunk_id := "DOC_sec0", content := smallText,
       section_title := smallText, chunk_index := 0 } :
        PolicyChunk).content.length ≤ MAX_CHUNK_SIZE ∨
    ∃ sec ∈ (pySections smallText).map pyStrip,
      MAX_CHUNK_SIZE < sec.length ∧
      ∃ l ∈ splitLargeLists (pySentences sec),
        ({ chunk_id := "DOC_sec0", content := smallText,
           section_title := smallText, chunk_index := 0 } :
            PolicyChunk).content = pyJoin " " l ∧
          (sumLens l ≤ MAX_CHUNK_SIZE ∨ l.length ≤ 3) :=
  chunk_size_amended smallText "DOC"
    { chunk_id := "DOC_sec0", content := smallText,
      section_title := smallText, chunk_index := 0 } (by decide)
